import Mathlib

/-!
Shallow embedding of `notebooks/example_recsys_runner.py` (Transformers4Rec
example runner).  The file's only original logic is the driver `main`, the
`DataLoaderWithLen` wrapper, the nested helper `get_files`, and two static
petastorm schema declarations.  External effects (filesystem queries, glob,
the petastorm reader, the trainer) are parameterised by an `Env` record, and
`main` is modelled as a function returning the ordered trace of the calls it
makes together with its outcome (normal return value or raised exception).

Two Python names referenced by the active `main` are never defined/imported
in the module: `tokenizer` (line 268) and `math` (line 277).  Evaluating such
a name raises `NameError` in Python; the embedding reflects this faithfully.
-/

namespace RecsysRunner

/-- Numpy dtype tokens appearing in the schema declarations of the source
(`np.int`, `np.int64`, `np.float`, `np.double`). -/
inductive NpDType
  | int
  | int64
  | float
  | double
  deriving DecidableEq

/-- A petastorm `UnischemaField(name, numpy_dtype, shape, codec, nullable)` as
declared in the source.  A scalar shape `()` is `[]`; the variable-length
shape `(None,)` is `[none]`.  Every codec in the source is `None`. -/
structure UnischemaField where
  name : String
  numpy_dtype : NpDType
  shape : List (Option Nat)
  codec : Option Unit
  nullable : Bool
  deriving DecidableEq

/-- Source line 48: arbitrary declared length for the train loader. -/
def TRAIN_DATA_LEN : Nat := 10000

/-- Source line 49: arbitrary declared length for the eval loader. -/
def EVAL_DATA_LEN : Nat := 10000

/-- The `recsys_schema_small` list ("data B"), source lines 147-151. -/
def recsys_schema_small : List UnischemaField :=
  [⟨"pid_seq_zpd", .int64, [], none, true⟩,
   ⟨"cid_seq_zpd", .int64, [], none, true⟩,
   ⟨"dtime_seq_zpd", .float, [], none, true⟩]

/-- The `recsys_schema_full` list ("data A"), source lines 154-198.  The
`user_session` field is commented out in the source and hence absent here. -/
def recsys_schema_full : List UnischemaField :=
  [⟨"user_idx", .int, [], none, true⟩,
   ⟨"sess_seq_len", .int, [], none, false⟩,
   ⟨"session_start_ts", .int64, [], none, true⟩,
   ⟨"user_seq_length_bef_sess", .int, [], none, false⟩,
   ⟨"user_elapsed_days_bef_sess", .float, [], none, true⟩,
   ⟨"user_elapsed_days_log_bef_sess_norm", .double, [], none, true⟩,
   ⟨"sess_pid_seq", .int64, [none], none, true⟩,
   ⟨"sess_etime_seq", .int64, [none], none, true⟩,
   ⟨"sess_etype_seq", .int, [none], none, true⟩,
   ⟨"sess_csid_seq", .int, [none], none, true⟩,
   ⟨"sess_ccid_seq", .int, [none], none, true⟩,
   ⟨"sess_bid_seq", .int, [none], none, true⟩,
   ⟨"sess_price_seq", .float, [none], none, true⟩,
   ⟨"sess_dtime_seq", .float, [none], none, true⟩,
   ⟨"sess_product_recency_seq", .float, [none], none, true⟩,
   ⟨"sess_relative_price_to_avg_category_seq", .float, [none], none, true⟩,
   ⟨"sess_et_hour_sin_seq", .float, [none], none, true⟩,
   ⟨"sess_et_hour_cos_seq", .float, [none], none, true⟩,
   ⟨"sess_et_month_sin_seq", .float, [none], none, true⟩,
   ⟨"sess_et_month_cos_seq", .float, [none], none, true⟩,
   ⟨"sess_et_dayofweek_sin_seq", .float, [none], none, true⟩,
   ⟨"sess_et_dayofweek_cos_seq", .float, [none], none, true⟩,
   ⟨"sess_et_dayofmonth_sin_seq", .float, [none], none, true⟩,
   ⟨"sess_et_dayofmonth_cos_seq", .float, [none], none, true⟩,
   ⟨"user_pid_seq_bef_sess", .int64, [none], none, true⟩,
   ⟨"user_etime_seq_bef_sess", .int64, [none], none, true⟩,
   ⟨"user_etype_seq_bef_sess", .int, [none], none, true⟩,
   ⟨"user_csid_seq_bef_sess", .int, [none], none, true⟩,
   ⟨"user_ccid_seq_bef_sess", .int, [none], none, true⟩,
   ⟨"user_bid_seq_bef_sess", .int, [none], none, true⟩,
   ⟨"user_price_seq_bef_sess", .float, [none], none, true⟩,
   ⟨"user_dtime_seq_bef_sess", .float, [none], none, true⟩,
   ⟨"user_product_recency_seq_bef_sess", .float, [none], none, true⟩,
   ⟨"user_relative_price_to_avg_category_seq_bef_sess", .float, [none], none, true⟩,
   ⟨"user_et_hour_sin_seq_bef_sess", .float, [none], none, true⟩,
   ⟨"user_et_hour_cos_seq_bef_sess", .float, [none], none, true⟩,
   ⟨"user_et_month_sin_seq_bef_sess", .float, [none], none, true⟩,
   ⟨"user_et_month_cos_seq_bef_sess", .float, [none], none, true⟩,
   ⟨"user_et_dayofweek_sin_seq_bef_sess", .float, [none], none, true⟩,
   ⟨"user_et_dayofweek_cos_seq_bef_sess", .float, [none], none, true⟩,
   ⟨"user_et_dayofmonth_sin_seq_bef_sess", .float, [none], none, true⟩,
   ⟨"user_et_dayofmonth_cos_seq_bef_sess", .float, [none], none, true⟩]

/-- Python exceptions raised by (or because of) code in this module. -/
inductive PyError
  | valueError (msg : String)
  | nameError (nm : String)
  | keyError (key : String)
  deriving DecidableEq

/-- Python `dict.pop(key)` with no default: returns the value and the dict
without that key, or raises `KeyError` when the key is absent. -/
def dict_pop (key : String) (kwargs : List (String × Nat)) :
    Except PyError (Nat × List (String × Nat)) :=
  match kwargs.lookup key with
  | none => Except.error (PyError.keyError key)
  | some v => Except.ok (v, kwargs.filter (fun kv => kv.1 ≠ key))

/-- Keyword-argument level model of `DataLoaderWithLen.__init__` (source lines
53-55): `self.len = kwargs.pop('len')`, then the parent constructor runs on
the remaining kwargs.  The result is `(stored len, kwargs the parent
receives)`; a `KeyError` from the pop propagates before the parent
`DataLoader.__init__` is ever entered, which the embedding reflects by
returning the error with no parent-kwargs component. -/
def DataLoaderWithLen_init (kwargs : List (String × Nat)) :
    Except PyError (Nat × List (String × Nat)) :=
  match dict_pop "len" kwargs with
  | Except.error e => Except.error e
  | Except.ok (v, rest) => Except.ok (v, rest)

/-- The value produced by `make_batch_reader(paths, num_epochs=None,
schema_fields=...)`: an external reader, modelled by the arguments the source
passes to it. -/
structure BatchReader where
  dataset_url_or_urls : List String
  schema_fields : List UnischemaField
  deriving DecidableEq

def make_batch_reader (paths : List String) (schema_fields : List UnischemaField) :
    BatchReader :=
  ⟨paths, schema_fields⟩

/-- A constructed `DataLoaderWithLen`: the parent `DataLoader` state (reader
and batch size) plus the `len` attribute stored by `__init__`. -/
structure DataLoaderWithLen where
  reader : BatchReader
  batch_size : Nat
  len : Nat
  deriving DecidableEq

/-- `DataLoaderWithLen.__len__` (source lines 56-57): returns `self.len`. -/
def DataLoaderWithLen_len (d : DataLoaderWithLen) : Nat := d.len

/-- The nested helper `get_files` (source lines 139-141): for each directory
path, glob `path + "/*.parquet"`, prefix each match with `file://`, and chain
the per-path lists in order.  The glob itself is external and passed in. -/
def get_files (globFn : String → List String) (data_paths : List String) :
    List String :=
  List.flatten (data_paths.map (fun path =>
    (globFn (path ++ "/*.parquet")).map (fun p => "file://" ++ p)))

/-- Source line 125. -/
def d_path : String := "~/dataset/ecommerce_preproc_Oct_01-10_2019.parquet/"

/-- The "data A" train directories (source lines 126-130), immediately
shadowed by the "data B" reassignment below and never used. -/
def train_data_path_A : List String :=
  [d_path ++ "session_start_date=2019-10-01",
   d_path ++ "session_start_date=2019-10-02"]

/-- The effective train directories: the "data B" reassignment at source
line 133 overwrites the list above. -/
def train_data_path : List String :=
  ["~/dataset/20200617044630-appid-local-1592357472062-5618370f-419b-4421-be76-1ef1bc3df293/"]

/-- The eval directories, source lines 135-137. -/
def eval_data_path : List String :=
  [d_path ++ "session_start_date=2019-10-04"]

/-- The custom `XLNetConfig` hyperparameter record; field values mirror
source lines 223-237. -/
structure XLNetConfig where
  product_vocab_size : Nat
  category_vocab_size : Nat
  brand_vocab_size : Nat
  d_model : Nat
  n_layer : Nat
  n_head : Nat
  d_inner : Nat
  ff_activation : String
  untie_r : Bool
  attn_type : String
  initializer_range : Rat
  layer_norm_eps : Rat
  dropout : Rat
  deriving DecidableEq

/-- The concrete configuration constructed in `main` (source lines 223-237). -/
def main_config : XLNetConfig :=
  ⟨300000, 1000, 500, 1024, 24, 16, 4096, "gelu", true, "bi",
   2 / 100, 1 / 1000000000000, 1 / 10⟩

/-- The `ModelArguments` dataclass (source lines 64-88); every field defaults
to `None`. -/
structure ModelArguments where
  model_name_or_path : Option String
  model_type : Option String
  config_name : Option String
  tokenizer_name : Option String
  cache_dir : Option String
  deriving DecidableEq

/-- The slice of the external `TrainingArguments` dataclass that `main`
reads. -/
structure TrainingArguments where
  output_dir : String
  do_train : Bool
  do_eval : Bool
  overwrite_output_dir : Bool
  per_device_train_batch_size : Nat
  per_device_eval_batch_size : Nat
  seed : Nat
  deriving DecidableEq

/-- External world: filesystem predicates, glob results, and whether
`trainer.is_world_master()` answers true for this process. -/
structure Env where
  path_exists : String → Bool
  listdir : String → List String
  globFn : String → List String
  isdir : String → Bool
  is_world_master : Bool

/-- Observable calls `main` makes, in program order. -/
inductive Event
  | parseArgs
  | setSeed (seed : Nat)
  | globPattern (pat : String)
  | constructTrainLoader (d : DataLoaderWithLen)
  | constructEvalLoader (d : DataLoaderWithLen)
  | constructConfig (c : XLNetConfig)
  | constructModel
  | constructTrainer
  | trainerTrain (model_path : Option String)
  | saveModel
  | trainerEvaluate
  | writeFile (path : String) (contents : String)
  deriving DecidableEq

/-- The guard condition of source lines 97-102: output dir exists, is
non-empty (`os.listdir` truthy), `do_train` is set, and
`overwrite_output_dir` is not. -/
def output_dir_guard (ta : TrainingArguments) (env : Env) : Bool :=
  env.path_exists ta.output_dir
    && !(env.listdir ta.output_dir).isEmpty
    && ta.do_train
    && !ta.overwrite_output_dir

/-- The `ValueError` message of source lines 103-105. -/
def value_error_msg (output_dir : String) : String :=
  "Output directory (" ++ output_dir
    ++ ") already exists and is not empty. Use --overwrite_output_dir to overcome."

/-- The `results` dict returned by `main`. -/
abbrev Results := List (String × String)

/-- The tail of `main` (source lines 270-290): `results = {}`; when `do_eval`
is set, `trainer.evaluate()` runs and then `math.exp(...)` is evaluated —
but `math` is never imported in the module, so evaluating the callee
`math.exp` raises `NameError: math` before the perplexity, the results file
write, or the dict update can happen.  When `do_eval` is unset, `main`
returns the empty dict. -/
def main_eval_tail (ta : TrainingArguments) (tr : List Event) :
    List Event × Except PyError Results :=
  if ta.do_eval then
    (tr ++ [Event.trainerEvaluate], Except.error (PyError.nameError "math"))
  else
    (tr, Except.ok [])

/-- The driver `main` (source lines 92-290), as a trace-and-outcome function
over parsed arguments and the external environment.  Statement order follows
the source: guard, logging/seed, glob of the hard-coded paths, the two
loaders, the XLNet config and model, the trainer, then the conditional
train step (whose tokenizer re-save dies with `NameError: tokenizer` on the
world-master process, `tokenizer` being undefined) and the conditional
evaluation tail. -/
def main (ma : ModelArguments) (ta : TrainingArguments) (env : Env) :
    List Event × Except PyError Results :=
  if output_dir_guard ta env then
    ([Event.parseArgs],
     Except.error (PyError.valueError (value_error_msg ta.output_dir)))
  else
    let train_files := get_files env.globFn train_data_path
    let eval_files := get_files env.globFn eval_data_path
    let train_loader : DataLoaderWithLen :=
      ⟨make_batch_reader train_files recsys_schema_small,
       ta.per_device_train_batch_size, TRAIN_DATA_LEN⟩
    let eval_loader : DataLoaderWithLen :=
      ⟨make_batch_reader eval_files recsys_schema_full,
       ta.per_device_eval_batch_size, EVAL_DATA_LEN⟩
    let pre : List Event :=
      [Event.parseArgs, Event.setSeed ta.seed]
        ++ train_data_path.map (fun p => Event.globPattern (p ++ "/*.parquet"))
        ++ eval_data_path.map (fun p => Event.globPattern (p ++ "/*.parquet"))
        ++ [Event.constructTrainLoader train_loader,
            Event.constructEvalLoader eval_loader,
            Event.constructConfig main_config,
            Event.constructModel,
            Event.constructTrainer]
    if ta.do_train then
      let model_path : Option String :=
        match ma.model_name_or_path with
        | some p => if env.isdir p then some p else none
        | none => none
      let tr := pre ++ [Event.trainerTrain model_path, Event.saveModel]
      if env.is_world_master then
        (tr, Except.error (PyError.nameError "tokenizer"))
      else
        main_eval_tail ta tr
    else
      main_eval_tail ta pre

/-- Suffix test on strings via their character lists (kernel-reducible). -/
def strEndsWith (s suf : String) : Bool :=
  List.isPrefixOf suf.data.reverse s.data.reverse

/-- A schema field whose name ends in `_seq` or `_seq_bef_sess`. -/
def is_seq_field (f : UnischemaField) : Bool :=
  strEndsWith f.name "_seq" || strEndsWith f.name "_seq_bef_sess"

/-- Classification of events into the five driver steps: parse configuration,
glob data into batch readers, construct the model, hand both to the trainer,
invoke train/evaluate. -/
def stepOf : Event → Nat
  | Event.parseArgs => 1
  | Event.setSeed _ => 1
  | Event.globPattern _ => 2
  | Event.constructTrainLoader _ => 2
  | Event.constructEvalLoader _ => 2
  | Event.constructConfig _ => 3
  | Event.constructModel => 3
  | Event.constructTrainer => 4
  | Event.trainerTrain _ => 5
  | Event.saveModel => 5
  | Event.trainerEvaluate => 5
  | Event.writeFile _ _ => 5

def isTrainEvent : Event → Bool
  | Event.trainerTrain _ => true
  | _ => false

def isSaveModelEvent : Event → Bool
  | Event.saveModel => true
  | _ => false

def isEvaluateEvent : Event → Bool
  | Event.trainerEvaluate => true
  | _ => false

def isWriteEvent : Event → Bool
  | Event.writeFile _ _ => true
  | _ => false

def isTrainLoaderEvent : Event → Bool
  | Event.constructTrainLoader _ => true
  | _ => false

def isEvalLoaderEvent : Event → Bool
  | Event.constructEvalLoader _ => true
  | _ => false

def isConfigEvent : Event → Bool
  | Event.constructConfig _ => true
  | _ => false

def isModelEvent : Event → Bool
  | Event.constructModel => true
  | _ => false

def isTrainerEvent : Event → Bool
  | Event.constructTrainer => true
  | _ => false

/-- Declared lengths of the train loaders constructed in a trace. -/
def trainLoaderLens (tr : List Event) : List Nat :=
  tr.filterMap (fun e => match e with
    | Event.constructTrainLoader d => some (DataLoaderWithLen_len d)
    | _ => none)

/-- Declared lengths of the eval loaders constructed in a trace. -/
def evalLoaderLens (tr : List Event) : List Nat :=
  tr.filterMap (fun e => match e with
    | Event.constructEvalLoader d => some (DataLoaderWithLen_len d)
    | _ => none)

/-- Glob patterns issued in a trace, in order. -/
def globPatterns (tr : List Event) : List String :=
  tr.filterMap (fun e => match e with
    | Event.globPattern p => some p
    | _ => none)

/-- A string list is non-empty exactly when `isEmpty` answers `false`. -/
theorem isEmpty_false_iff (l : List String) : l.isEmpty = false ↔ l ≠ [] := by
  cases l <;> simp

/-- Looking a key up after filtering out every pair with that key yields
nothing. -/
theorem lookup_filter_self_none (k : String) (l : List (String × Nat)) :
    (l.filter (fun kv => kv.1 ≠ k)).lookup k = none := by
  induction l with
  | nil => rfl
  | cons hd tl ih =>
      obtain ⟨a, b⟩ := hd
      by_cases h : a = k
      · simpa [List.filter_cons, h] using ih
      · have hb : (k == a) = false := by
          cases hbe : k == a
          · rfl
          · exact absurd (eq_of_beq hbe) (fun hk => h hk.symm)
        simp [List.filter_cons, h, List.lookup, hb, ih]
        exact fun _ _ _ hn hk => hn hk.symm

/-- Default model arguments: every field of the dataclass is `None`. -/
def arbModelArgs : ModelArguments := ⟨none, none, none, none, none⟩

/-- A world where every directory exists and contains a checkpoint file. -/
def envNonEmptyDir : Env :=
  ⟨fun _ => true, fun _ => ["checkpoint-500"], fun _ => [], fun _ => false, true⟩

/-- A world with no existing paths and empty glob results, on the
world-master process. -/
def envFresh : Env :=
  ⟨fun _ => false, fun _ => [], fun _ => [], fun _ => false, true⟩

/-- Arguments with neither `do_train` nor `do_eval` nor the overwrite flag. -/
def taNoFlags : TrainingArguments := ⟨"./tmp/", false, false, false, 8, 8, 42⟩

/-- C1 (amended): `main` raises a `ValueError` precisely when the output
directory exists, is non-empty, the `do_train` flag is set, and the
overwrite flag is not; in every other situation no `ValueError` is raised.
This is the only `raise` statement in the module. -/
theorem C1_value_error_iff (ma : ModelArguments) (ta : TrainingArguments) (env : Env) :
    (∃ msg, (main ma ta env).2 = Except.error (PyError.valueError msg))
    ↔ (env.path_exists ta.output_dir = true ∧ env.listdir ta.output_dir ≠ []
       ∧ ta.do_train = true ∧ ta.overwrite_output_dir = false) := by
  have step1 : (∃ msg, (main ma ta env).2 = Except.error (PyError.valueError msg))
      ↔ output_dir_guard ta env = true := by
    cases hg : output_dir_guard ta env with
    | true => simp [main, hg]
    | false =>
        simp only [main, hg]
        cases hdt : ta.do_train <;> cases hde : ta.do_eval <;>
          cases hwm : env.is_world_master <;>
            simp [main_eval_tail, hde, hwm]
  have step2 : output_dir_guard ta env = true
      ↔ (env.path_exists ta.output_dir = true ∧ env.listdir ta.output_dir ≠ []
         ∧ ta.do_train = true ∧ ta.overwrite_output_dir = false) := by
    cases l : env.listdir ta.output_dir <;>
      simp [output_dir_guard, Bool.and_eq_true, Bool.not_eq_true', l, and_assoc]
  exact step1.trans step2

/-- C1 counterexample to the claim as stated: with the output directory
existing and non-empty and the overwrite flag unset but `do_train` unset,
`main` raises nothing and returns the empty dict — the guard at source
lines 97-102 also requires `do_train`. -/
theorem C1_counterexample :
    envNonEmptyDir.path_exists taNoFlags.output_dir = true
    ∧ envNonEmptyDir.listdir taNoFlags.output_dir ≠ []
    ∧ taNoFlags.overwrite_output_dir = false
    ∧ (main arbModelArgs taNoFlags envNonEmptyDir).2 = Except.ok [] := by
  refine ⟨rfl, by decide, rfl, by rfl⟩

/-- Arguments with `do_train` set and overwrite unset. -/
def taTrainNoOverwrite : TrainingArguments :=
  ⟨"./model_out/", true, false, false, 8, 8, 42⟩

/-- C1 witness: the amended theorem instantiated at a concrete run that
does raise the `ValueError`. -/
theorem C1_witness :
    ∃ msg, (main arbModelArgs taTrainNoOverwrite envNonEmptyDir).2
      = Except.error (PyError.valueError msg) :=
  (C1_value_error_iff arbModelArgs taTrainNoOverwrite envNonEmptyDir).mpr
    ⟨rfl, by decide, rfl, rfl⟩

/-- C2 (amended): when the output directory exists and is non-empty, the
overwrite flag is unset, and `do_train` is set, `main` aborts with the
`ValueError` right after argument parsing: the trace holds no loader,
model, trainer, train or evaluate call. -/
theorem C2_guard_aborts_first (ma : ModelArguments) (ta : TrainingArguments) (env : Env)
    (h1 : env.path_exists ta.output_dir = true)
    (h2 : env.listdir ta.output_dir ≠ [])
    (h3 : ta.do_train = true)
    (h4 : ta.overwrite_output_dir = false) :
    (main ma ta env).1 = [Event.parseArgs]
    ∧ (main ma ta env).2
        = Except.error (PyError.valueError (value_error_msg ta.output_dir)) := by
  have hg : output_dir_guard ta env = true := by
    simp [output_dir_guard, h1, h3, h4, (isEmpty_false_iff _).mpr h2]
  simp [main, hg]

/-- Arguments with no flags at all and a different output directory. -/
def taNoFlagsB : TrainingArguments := ⟨"./out/", false, false, false, 16, 16, 7⟩

/-- C2 counterexample to the claim as stated: with the output directory
non-empty and overwrite unset but `do_train` unset, no configuration error
is raised and the data loaders are constructed. -/
theorem C2_counterexample :
    envNonEmptyDir.path_exists taNoFlagsB.output_dir = true
    ∧ envNonEmptyDir.listdir taNoFlagsB.output_dir ≠ []
    ∧ taNoFlagsB.overwrite_output_dir = false
    ∧ (main arbModelArgs taNoFlagsB envNonEmptyDir).2 = Except.ok []
    ∧ (main arbModelArgs taNoFlagsB envNonEmptyDir).1.any isTrainLoaderEvent
        = true := by
  refine ⟨rfl, by decide, rfl, by rfl, by rfl⟩

/-- Training arguments that trip the output-directory guard. -/
def taTrainB : TrainingArguments := ⟨"./ckpts/", true, false, false, 4, 4, 0⟩

/-- C2 witness: the amended theorem instantiated at a concrete guarded run. -/
theorem C2_witness :
    (main arbModelArgs taTrainB envNonEmptyDir).1 = [Event.parseArgs]
    ∧ (main arbModelArgs taTrainB envNonEmptyDir).2
        = Except.error (PyError.valueError (value_error_msg taTrainB.output_dir)) :=
  C2_guard_aborts_first arbModelArgs taTrainB envNonEmptyDir rfl (by decide) rfl rfl

/-- Arguments with only `do_eval` set. -/
def taEvalOnly : TrainingArguments := ⟨"./results/", false, true, false, 8, 8, 42⟩

/-- C3 (code bug): on a run with `do_eval` set, `trainer.evaluate` is called
but `main` then dies evaluating `math.exp` — `math` is never imported in the
module — so the perplexity is never computed, `eval_results_lm.txt` is never
written, and no results dict is returned, contrary to the claimed (and
clearly intended) behaviour. -/
theorem C3_do_eval_dies_on_math :
    taEvalOnly.do_eval = true
    ∧ (main arbModelArgs taEvalOnly envFresh).2
        = Except.error (PyError.nameError "math")
    ∧ (main arbModelArgs taEvalOnly envFresh).1.any isEvaluateEvent = true
    ∧ (main arbModelArgs taEvalOnly envFresh).1.any isWriteEvent = false :=
  ⟨rfl, by rfl, by rfl, by rfl⟩

/-- C4: a `DataLoaderWithLen` built from any reader, batch size and declared
length reports exactly that length via `__len__`, and on every run of `main`
that passes the guard the single train loader constructed declares
`TRAIN_DATA_LEN` and the single eval loader declares `EVAL_DATA_LEN`.  The
embedding is purely functional, so no later operation can change the stored
value. -/
theorem C4_loader_len :
    (∀ (r : BatchReader) (bs n : Nat), DataLoaderWithLen_len ⟨r, bs, n⟩ = n)
    ∧ (∀ (ma : ModelArguments) (ta : TrainingArguments) (env : Env),
        output_dir_guard ta env = false →
          trainLoaderLens (main ma ta env).1 = [TRAIN_DATA_LEN]
          ∧ evalLoaderLens (main ma ta env).1 = [EVAL_DATA_LEN]) := by
  refine ⟨fun r bs n => rfl, fun ma ta env hg => ?_⟩
  simp only [main, hg, Bool.false_eq_true, if_false]
  cases hdt : ta.do_train <;> cases hde : ta.do_eval <;>
    cases hwm : env.is_world_master <;>
      simp [main_eval_tail, hde, hwm, trainLoaderLens, evalLoaderLens,
        DataLoaderWithLen_len, train_data_path, eval_data_path,
        List.filterMap_append, List.filterMap_cons]

/-- C4 witness: the loader-length theorem instantiated at a concrete run. -/
theorem C4_witness :
    trainLoaderLens (main arbModelArgs taNoFlags envFresh).1 = [TRAIN_DATA_LEN]
    ∧ evalLoaderLens (main arbModelArgs taNoFlags envFresh).1 = [EVAL_DATA_LEN] :=
  C4_loader_len.2 arbModelArgs taNoFlags envFresh (by rfl)

/-- C5: `get_files` returns the concatenation, in input-path order, of the
globbed `<path>/*.parquet` matches of each directory, each prefixed with
`file://` (characterised by the nil and cons equations), and returns `[]`
whenever no path has a matching file. -/
theorem C5_get_files_spec (g : String → List String) (paths : List String) :
    get_files g [] = []
    ∧ (∀ p rest, get_files g (p :: rest)
        = (g (p ++ "/*.parquet")).map (fun q => "file://" ++ q) ++ get_files g rest)
    ∧ ((∀ p ∈ paths, g (p ++ "/*.parquet") = []) → get_files g paths = []) := by
  refine ⟨rfl, fun p rest => by simp [get_files], ?_⟩
  induction paths with
  | nil => intro _; rfl
  | cons p rest ih =>
      intro h
      have hp := h p (List.mem_cons_self p rest)
      have ht : ∀ q ∈ rest, g (q ++ "/*.parquet") = [] :=
        fun q hq => h q (List.mem_cons_of_mem p hq)
      have := ih ht
      simp [get_files, hp] at this ⊢
      exact this

/-- C5 witness: the empty-glob clause instantiated at a concrete glob
function and path list. -/
theorem C5_witness :
    get_files (fun _ => []) ["~/dataset/a", "~/dataset/b"] = [] :=
  (C5_get_files_spec (fun _ => []) ["~/dataset/a", "~/dataset/b"]).2.2
    (fun _ _ => rfl)

/-- Arguments with both `do_train` and `do_eval` set. -/
def taTrainEval : TrainingArguments := ⟨"./tmp6/", true, true, false, 8, 8, 1⟩

/-- C6 counterexample to the claim as stated: on a world-master run with
both flags set, training happens and `do_eval` is set, yet
`trainer.evaluate` is never invoked — the run dies at the tokenizer re-save
first. -/
theorem C6_counterexample :
    taTrainEval.do_eval = true
    ∧ (main arbModelArgs taTrainEval envFresh).1.any isTrainEvent = true
    ∧ (main arbModelArgs taTrainEval envFresh).1.any isEvaluateEvent = false :=
  ⟨rfl, by rfl, by rfl⟩

/-- C6 (amended): on every run that passes the guard, the trace follows the
five-step order (parse/seed, glob + loader construction, config + model,
trainer, train/evaluate); `trainer.train` runs iff `do_train` is set, and
`trainer.evaluate` runs iff `do_eval` is set and the run was not already
killed by the tokenizer `NameError` (i.e. unless `do_train` is set on the
world-master process). -/
theorem C6_step_order (ma : ModelArguments) (ta : TrainingArguments) (env : Env)
    (hg : output_dir_guard ta env = false) :
    ((main ma ta env).1.map stepOf).Sorted (· ≤ ·)
    ∧ (main ma ta env).1.any isTrainEvent = ta.do_train
    ∧ (main ma ta env).1.any isEvaluateEvent
        = (ta.do_eval && !(ta.do_train && env.is_world_master)) := by
  simp only [main, hg, Bool.false_eq_true, if_false]
  cases hdt : ta.do_train <;> cases hde : ta.do_eval <;>
    cases hwm : env.is_world_master <;>
      simp [main_eval_tail, hde, hwm, stepOf, isTrainEvent, isEvaluateEvent,
        train_data_path, eval_data_path, List.any_append, List.map_append,
        List.sorted_cons, List.Sorted]

/-- Arguments with only `do_eval` set and a distinct output directory. -/
def taEvalOnlyB : TrainingArguments := ⟨"./tmp7/", false, true, false, 2, 2, 5⟩

/-- C6 witness: the step-order theorem instantiated at a concrete eval-only
run. -/
theorem C6_witness :
    ((main arbModelArgs taEvalOnlyB envFresh).1.map stepOf).Sorted (· ≤ ·)
    ∧ (main arbModelArgs taEvalOnlyB envFresh).1.any isTrainEvent
        = taEvalOnlyB.do_train
    ∧ (main arbModelArgs taEvalOnlyB envFresh).1.any isEvaluateEvent
        = (taEvalOnlyB.do_eval
            && !(taEvalOnlyB.do_train && envFresh.is_world_master)) :=
  C6_step_order arbModelArgs taEvalOnlyB envFresh (by rfl)

set_option maxRecDepth 4000 in
/-- C7: the small schema has exactly three fields, all scalar; in the full
schema every field whose name ends in `_seq` or `_seq_bef_sess` has the
variable-length shape `(None,)`, every other field is scalar, and precisely
`sess_seq_len` and `user_seq_length_bef_sess` are non-nullable. -/
theorem C7_schema_decls :
    recsys_schema_small.length = 3
    ∧ (∀ f ∈ recsys_schema_small, f.shape = [])
    ∧ (∀ f ∈ recsys_schema_full,
        (is_seq_field f = true → f.shape = [none])
        ∧ (is_seq_field f = false → f.shape = [])
        ∧ (f.nullable = false ↔
            (f.name = "sess_seq_len" ∨ f.name = "user_seq_length_bef_sess"))) := by
  decide

/-- C7 witness: the schema theorem instantiated at the `sess_pid_seq`
field. -/
theorem C7_witness :
    (⟨"sess_pid_seq", NpDType.int64, [none], none, true⟩ : UnischemaField).shape
      = [none] :=
  (C7_schema_decls.2.2 ⟨"sess_pid_seq", NpDType.int64, [none], none, true⟩
    (by decide)).1 (by decide)

/-- C8: with `do_train` set on the world-master process the run never
returns normally; whenever the output-directory guard lets it proceed,
`trainer.train` and `trainer.save_model` are invoked and `main` then raises
`NameError` on the undefined name `tokenizer` (source line 268). -/
theorem C8_tokenizer_name_error (ma : ModelArguments) (ta : TrainingArguments) (env : Env)
    (hdt : ta.do_train = true) (hwm : env.is_world_master = true) :
    (∀ r : Results, (main ma ta env).2 ≠ Except.ok r)
    ∧ (output_dir_guard ta env = false →
        (main ma ta env).2 = Except.error (PyError.nameError "tokenizer")
        ∧ (main ma ta env).1.any isTrainEvent = true
        ∧ (main ma ta env).1.any isSaveModelEvent = true) := by
  constructor
  · intro r
    cases hg : output_dir_guard ta env with
    | true => simp [main, hg]
    | false => simp [main, hg, hdt, hwm]
  · intro hg
    refine ⟨?_, ?_, ?_⟩ <;>
      simp [main, hg, hdt, hwm, List.any_append, isTrainEvent, isSaveModelEvent]

/-- Arguments with only `do_train` set. -/
def taTrainOnly : TrainingArguments := ⟨"./tmp8/", true, false, false, 8, 8, 3⟩

/-- C8 witness: the tokenizer theorem instantiated at a concrete train-only
world-master run. -/
theorem C8_witness :
    (∀ r : Results, (main arbModelArgs taTrainOnly envFresh).2 ≠ Except.ok r)
    ∧ (output_dir_guard taTrainOnly envFresh = false →
        (main arbModelArgs taTrainOnly envFresh).2
          = Except.error (PyError.nameError "tokenizer")
        ∧ (main arbModelArgs taTrainOnly envFresh).1.any isTrainEvent = true
        ∧ (main arbModelArgs taTrainOnly envFresh).1.any isSaveModelEvent = true) :=
  C8_tokenizer_name_error arbModelArgs taTrainOnly envFresh rfl rfl

/-- C9: with both flags unset, `main` still globs the hard-coded paths and
constructs both loaders, the XLNet configuration, the model and the
trainer, performs no training or evaluation, writes no file, and returns
the empty dict. -/
theorem C9_unconditional_construction (ma : ModelArguments) (ta : TrainingArguments)
    (env : Env) (hdt : ta.do_train = false) (hde : ta.do_eval = false) :
    (main ma ta env).2 = Except.ok []
    ∧ globPatterns (main ma ta env).1
        = train_data_path.map (fun p => p ++ "/*.parquet")
          ++ eval_data_path.map (fun p => p ++ "/*.parquet")
    ∧ (main ma ta env).1.any isTrainLoaderEvent = true
    ∧ (main ma ta env).1.any isEvalLoaderEvent = true
    ∧ (main ma ta env).1.any isConfigEvent = true
    ∧ (main ma ta env).1.any isModelEvent = true
    ∧ (main ma ta env).1.any isTrainerEvent = true
    ∧ (main ma ta env).1.any isTrainEvent = false
    ∧ (main ma ta env).1.any isEvaluateEvent = false
    ∧ (main ma ta env).1.any isWriteEvent = false := by
  have hg : output_dir_guard ta env = false := by
    simp [output_dir_guard, hdt]
  simp [main, hg, main_eval_tail, hdt, hde, globPatterns, List.filterMap_append,
    List.any_append, isTrainLoaderEvent, isEvalLoaderEvent, isConfigEvent,
    isModelEvent, isTrainerEvent, isTrainEvent, isEvaluateEvent, isWriteEvent,
    train_data_path, eval_data_path]

/-- Arguments with both flags unset (overwrite set, irrelevantly). -/
def taNothing : TrainingArguments := ⟨"./tmp9/", false, false, true, 1, 1, 9⟩

/-- C9 witness: the unconditional-construction theorem at a concrete
flagless run. -/
theorem C9_witness :
    (main arbModelArgs taNothing envFresh).2 = Except.ok []
    ∧ globPatterns (main arbModelArgs taNothing envFresh).1
        = train_data_path.map (fun p => p ++ "/*.parquet")
          ++ eval_data_path.map (fun p => p ++ "/*.parquet")
    ∧ (main arbModelArgs taNothing envFresh).1.any isTrainLoaderEvent = true
    ∧ (main arbModelArgs taNothing envFresh).1.any isEvalLoaderEvent = true
    ∧ (main arbModelArgs taNothing envFresh).1.any isConfigEvent = true
    ∧ (main arbModelArgs taNothing envFresh).1.any isModelEvent = true
    ∧ (main arbModelArgs taNothing envFresh).1.any isTrainerEvent = true
    ∧ (main arbModelArgs taNothing envFresh).1.any isTrainEvent = false
    ∧ (main arbModelArgs taNothing envFresh).1.any isEvaluateEvent = false
    ∧ (main arbModelArgs taNothing envFresh).1.any isWriteEvent = false :=
  C9_unconditional_construction arbModelArgs taNothing envFresh rfl rfl

/-- C10: `DataLoaderWithLen.__init__` without a `len` keyword raises
`KeyError` before the parent `DataLoader` is initialised; with `len`
supplied, the stored value is the popped one and the kwargs handed to the
parent constructor no longer contain a `len` key. -/
theorem C10_init_len_kwarg (kwargs : List (String × Nat)) :
    (kwargs.lookup "len" = none →
        DataLoaderWithLen_init kwargs = Except.error (PyError.keyError "len"))
    ∧ (∀ v, kwargs.lookup "len" = some v →
        DataLoaderWithLen_init kwargs
          = Except.ok (v, kwargs.filter (fun kv => kv.1 ≠ "len"))
        ∧ (kwargs.filter (fun kv => kv.1 ≠ "len")).lookup "len" = none) := by
  constructor
  · intro h
    simp [DataLoaderWithLen_init, dict_pop, h]
  · intro v h
    exact ⟨by simp [DataLoaderWithLen_init, dict_pop, h],
           lookup_filter_self_none "len" kwargs⟩

/-- C10 witness: the init theorem at concrete kwargs, with and without the
`len` key. -/
theorem C10_witness :
    DataLoaderWithLen_init [("batch_size", 8)]
      = Except.error (PyError.keyError "len")
    ∧ DataLoaderWithLen_init [("batch_size", 8), ("len", 10000)]
        = Except.ok (10000,
            ([("batch_size", 8), ("len", 10000)] : List (String × Nat)).filter
              (fun kv => kv.1 ≠ "len"))
    ∧ (([("batch_size", 8), ("len", 10000)] : List (String × Nat)).filter
        (fun kv => kv.1 ≠ "len")).lookup "len" = none :=
  ⟨(C10_init_len_kwarg [("batch_size", 8)]).1 (by decide),
   ((C10_init_len_kwarg [("batch_size", 8), ("len", 10000)]).2 10000 (by decide)).1,
   ((C10_init_len_kwarg [("batch_size", 8), ("len", 10000)]).2 10000 (by decide)).2⟩

end RecsysRunner
